import Mathlib

/-!
# txwifi: the HTTP gateway of `main.go`

A shallow embedding of the request handlers, the envelope codec and the handler
`main` serves (the route table behind the CORS layer), with theorems about the
response each handler writes, what it logs and what it sends on the command
channel.

Conventions of the embedding

* a Go `error` is represented by the text its `Error()` method returns;
* a Go call returning `(value, err)` is a pair whose second component is
  `none` for a nil error;
* the collaborator (`iotwifi.WpaCfg`), the request body reader and the
  `encoding/json` decoder are inputs of the handlers: every theorem
  quantifies over what they return;
* the closures of `main` that mutate the response writer, the logger or the
  channel take the old state and return the new one.
-/

namespace Txwifi

/-! ## Go values at the boundary of the gateway -/

/-- Text of a Go `error` value, as returned by its `Error()` method. -/
abbrev GoError := String

/-- An `interface{}` value handed to `json.Marshal` as the payload of an
envelope.  The gateway never inspects a payload, so a collaborator result is
represented by what `json.Marshal` does with it. -/
inductive Payload where
  /-- The nil interface (field left unset); encodes as `null`. -/
  | nil
  /-- The value `struct{}{}`; encodes as an empty object. -/
  | emptyStruct
  /-- A collaborator result whose JSON encoding is `json`. -/
  | value (json : String)
  /-- A collaborator result that `json.Marshal` rejects with error `err`. -/
  | unsupported (err : GoError)
  deriving DecidableEq, Repr

/-- The struct `iotwifi.WpaCredentials` (fields tagged `ssid` and `psk`). -/
structure WpaCredentials where
  Ssid : String
  Psk : String
  deriving DecidableEq, Repr

/-- The struct `iotwifi.CmdMessage`. -/
structure CmdMessage where
  Id : String
  deriving DecidableEq, Repr

/-- The struct `APIReturn` of `main.go`: all three fields carry a plain
`json:"..."` tag, none with `omitempty`. -/
structure APIReturn where
  Status : String
  Message : String
  Payload : Payload
  deriving DecidableEq, Repr

/-! ## `encoding/json`: encoding -/

/-- Lower-case hexadecimal digit of `n < 16`. -/
def hexDigit (n : Nat) : Char :=
  if n < 10 then Char.ofNat (48 + n) else Char.ofNat (87 + n)

/-- How `json.Marshal` writes one character inside a string literal (HTML
escaping on, as `json.Marshal` has it): the quote and the backslash are
backslash-escaped, line feed, carriage return and tab get their short forms,
the other control characters (backspace and form feed among them, as the
encoders before Go 1.22 write them) and `<`, `>`, `&` become `\u00XX`, and
U+2028/U+2029 are escaped. -/
def escapeChar (c : Char) : String :=
  let n := c.toNat
  if n = 34 then "\\\""
  else if n = 92 then "\\\\"
  else if n = 10 then "\\n"
  else if n = 13 then "\\r"
  else if n = 9 then "\\t"
  else if n < 32 ∨ n = 60 ∨ n = 62 ∨ n = 38 then
    "\\u00" ++ String.mk [hexDigit (n / 16), hexDigit (n % 16)]
  else if n = 8232 then "\\u2028"
  else if n = 8233 then "\\u2029"
  else String.mk [c]

/-- JSON string literal that `json.Marshal` produces for a Go string. -/
def quote (s : String) : String :=
  "\"" ++ String.join (s.data.map escapeChar) ++ "\""

/-- Value of a hexadecimal digit, the inverse of `hexDigit`. -/
def hexValue (c : Char) : Nat :=
  if c.toNat ≤ 57 then c.toNat - 48 else c.toNat - 87

/-- Escaped form of a list of characters: the text `quote` puts between the
two quotes. -/
def escapeAll (cs : List Char) : List Char :=
  match cs with
  | [] => []
  | c :: cs => (escapeChar c).data ++ escapeAll cs

/-- Reads escaped text back, the way a JSON parser does: a backslash followed by
`u` and four hexadecimal digits is the character with that code, a backslash
followed by `n`, `r` or `t` the control character, a backslash followed by any
other character that character, and every other character stands for itself.
Used to show that `quote` loses nothing of the string. -/
def unescape : List Char → Option (List Char)
  | [] => some []
  | c :: rest =>
    if c.toNat = 92 then
      if (rest.headD c).toNat = 117 then
        if rest.length < 5 then none
        else
          (unescape (rest.drop 5)).map fun cs =>
            Char.ofNat (((hexValue (rest.getD 1 c) * 16 + hexValue (rest.getD 2 c)) * 16
              + hexValue (rest.getD 3 c)) * 16 + hexValue (rest.getD 4 c)) :: cs
      else if rest.length < 1 then none
      else
        (unescape (rest.drop 1)).map fun cs =>
          (if (rest.headD c).toNat = 110 then Char.ofNat 10
            else if (rest.headD c).toNat = 114 then Char.ofNat 13
            else if (rest.headD c).toNat = 116 then Char.ofNat 9
            else rest.headD c) :: cs
    else (unescape rest).map fun cs => c :: cs
termination_by l => l.length
decreasing_by
  all_goals simp_wf
  all_goals omega

/-- Result `(bytes, err)` of `json.Marshal` on a payload value. -/
def marshalPayload : Payload → String × Option GoError
  | .nil => ("null", none)
  | .emptyStruct => ("\x7b\x7d", none)
  | .value json => (json, none)
  | .unsupported err => ("", some err)

/-- A JSON object from its members `(key, encoded value)`, in order, the way
`json.Marshal` writes a struct: no white space, members separated by commas. -/
def encodeObject (members : List (String × String)) : String :=
  "\x7b" ++ String.intercalate "," (members.map fun m => quote m.1 ++ ":" ++ m.2)
    ++ "\x7d"

/-- Members that `json.Marshal` emits for an `APIReturn` whose payload encodes
as `payload`: one per struct field, in declaration order, under the key of the
field tag. -/
def APIReturn.members (a : APIReturn) (payload : String) : List (String × String) :=
  [("status", quote a.Status), ("message", quote a.Message), ("payload", payload)]

/-- Result `(bytes, err)` of `json.Marshal(&APIReturn{...})`: the error of the
payload if it has one (with nil bytes), the encoded object otherwise. -/
def APIReturn.marshal (a : APIReturn) : String × Option GoError :=
  match marshalPayload a.Payload with
  | (_, some err) => ("", some err)
  | (payload, none) => (encodeObject (a.members payload), none)

/-! ## `net/http`: the response writer -/

/-- State of the `http.ResponseWriter` of one request: the mutable header map,
the status line once the header has been sent (with the header map as it was
at that moment), and the byte slices passed to `Write`, in order. -/
structure ResponseWriter where
  header : List (String × String)
  status : Option Nat
  sentHeader : List (String × String)
  written : List String
  deriving DecidableEq, Repr

/-- Response writer handed to a handler: nothing sent yet, `header` holding
whatever the middleware in front of the router has already set. -/
def ResponseWriter.fresh (header : List (String × String)) : ResponseWriter :=
  ⟨header, none, [], []⟩

/-- The call `w.Header().Set(key, value)`: replaces the entry of `key`. -/
def ResponseWriter.headerSet (w : ResponseWriter) (key value : String) : ResponseWriter :=
  { w with header := (key, value) :: w.header.filter fun e => e.1 ≠ key }

/-- The call `w.WriteHeader(code)`: sends the status line and the current header
map; ignored once the header has been sent. -/
def ResponseWriter.WriteHeader (w : ResponseWriter) (code : Nat) : ResponseWriter :=
  match w.status with
  | some _ => w
  | none => { w with status := some code, sentHeader := w.header }

/-- The call `w.Write(b)`: sends the header with status 200 if it has not been
sent, then appends `b` to the body. -/
def ResponseWriter.Write (w : ResponseWriter) (b : String) : ResponseWriter :=
  let w := w.WriteHeader 200
  { w with written := w.written ++ [b] }

/-- Response body: the concatenation of everything written. -/
def ResponseWriter.body (w : ResponseWriter) : String :=
  String.join w.written

/-- The call `http.Error(w, error, code)`: plain-text content type, status
`code`, and the error text followed by a newline as body. -/
def httpError (w : ResponseWriter) (error : String) (code : Nat) : ResponseWriter :=
  let w := w.headerSet "Content-Type" "text/plain; charset=utf-8"
  let w := w.headerSet "X-Content-Type-Options" "nosniff"
  let w := w.WriteHeader code
  w.Write (error ++ "\n")

/-- Value of `http.StatusInternalServerError`. -/
def StatusInternalServerError : Nat := 500

/-- Value of `http.StatusMethodNotAllowed`. -/
def StatusMethodNotAllowed : Nat := 405

/-- Value of `http.StatusNotFound`. -/
def StatusNotFound : Nat := 404

/-- Value of `http.StatusMovedPermanently`. -/
def StatusMovedPermanently : Nat := 301

/-- Value of `http.StatusBadRequest`. -/
def StatusBadRequest : Nat := 400

/-- Value of `http.StatusForbidden`. -/
def StatusForbidden : Nat := 403

/-- Value of `http.StatusOK`. -/
def StatusOK : Nat := 200

/-! ## Logger, channel and request -/

/-- Levels of the bunyan logger used by the handlers. -/
inductive LogLevel where
  | info
  | error
  deriving DecidableEq, Repr

/-- One call of `blog.Info(...)` or `blog.Error(...)`: the level, the fields of
a leading map argument (empty when there is none) and the remaining arguments
in order, an error argument by its text. -/
structure LogEntry where
  level : LogLevel
  fields : List (String × String)
  args : List String
  deriving DecidableEq, Repr

/-- A buffered Go channel of `iotwifi.CmdMessage`: its capacity and the
messages waiting in the buffer, oldest first. -/
structure Chan where
  cap : Nat
  buf : List CmdMessage
  deriving DecidableEq, Repr

/-- The call `make(chan iotwifi.CmdMessage, cap)`. -/
def Chan.make (cap : Nat) : Chan := ⟨cap, []⟩

/-- The statement `ch <- m` with no receiver waiting: the message is appended
when the buffer has room, and the sender blocks (`none`) when it is full. -/
def Chan.send (ch : Chan) (m : CmdMessage) : Option Chan :=
  if ch.buf.length < ch.cap then some { ch with buf := ch.buf ++ [m] } else none

/-- A receive by the worker: the oldest message and the remaining channel, or
`none` when the buffer is empty. -/
def Chan.recv (ch : Chan) : Option (CmdMessage × Chan) :=
  match ch.buf with
  | [] => none
  | m :: rest => some (m, { ch with buf := rest })

/-- The parts of `*http.Request` the gateway and the libraries in front of it
read.  `Path` is `r.URL.Path`, `Body` the result `(bytes, err)` of
`ioutil.ReadAll(r.Body)`, `Header` the request header with one value per
canonical key, and `CleanURL` the text `url.String()` gives for the request
URL once its path is replaced by the canonical form (the router sends it as
`Location` when it redirects). -/
structure Request where
  Method : String
  Path : String
  RemoteAddr : String
  RequestURI : String
  Body : String × Option GoError
  Header : List (String × String)
  CleanURL : String
  deriving DecidableEq, Repr

/-- The call `r.Header.Get(key)`: the value of the header, empty when absent. -/
def Request.headerGet (r : Request) (key : String) : String :=
  (r.Header.lookup key).getD ""

/-- The call `json.NewDecoder(strings.NewReader(body)).Decode(&v)` with `v`
holding a pointer to a `WpaCredentials`: given the body and the credentials
before the call, the credentials after it and the error. -/
abbrev Decoder := String → WpaCredentials → WpaCredentials × Option GoError

/-- The collaborator `*iotwifi.WpaCfg`: what each of its methods returns.
`Disconnect()` returns nothing. -/
structure WpaCfg where
  Status : Payload × Option GoError
  ConnectNetwork : WpaCredentials → Payload × Option GoError
  ScanNetworks : Payload × Option GoError

/-- What the closures of `main` act on while serving one request: the response
writer of the request, the entries the closures log through `blog` (what the
collaborator logs on its own is not part of it) and the channel `messages`. -/
structure State where
  w : ResponseWriter
  blog : List LogEntry
  messages : Chan
  deriving DecidableEq, Repr

/-- The channel as `main` creates it: `make(chan iotwifi.CmdMessage, 1)`. -/
def messages : Chan := Chan.make 1

/-- The call `blog.Info(args...)`. -/
def State.Info (s : State) (fields : List (String × String)) (args : List String) : State :=
  { s with blog := s.blog ++ [⟨.info, fields, args⟩] }

/-- The call `blog.Error(args...)`. -/
def State.Error (s : State) (args : List String) : State :=
  { s with blog := s.blog ++ [⟨.error, [], args⟩] }

/-! ## The closures of `main` -/

/-- The closure `apiPayloadReturn`: the error of `json.Marshal` is discarded
and the bytes (nil on error) are written. -/
def apiPayloadReturn (s : State) (message : String) (payload : Payload) : State :=
  let apiReturn : APIReturn := ⟨"OK", message, payload⟩
  let (ret, _) := apiReturn.marshal
  let w := s.w.headerSet "Content-Type" "application/json"
  { s with w := w.Write ret }

/-- The closure `marshallPost`: reads the body and decodes it into `v`; either
failure answers through `http.Error` with status 500, logs the error and
returns.  The closure has no result, so the caller only sees `v`. -/
def marshallPost (decode : Decoder) (s : State) (r : Request) (v : WpaCredentials) :
    State × WpaCredentials :=
  match r.Body with
  | (_, some err) =>
    let s := { s with w := httpError s.w err StatusInternalServerError }
    (s.Error [err], v)
  | (bytes, none) =>
    match decode bytes v with
    | (v, some err) =>
      let s := { s with w := httpError s.w err StatusInternalServerError }
      (s.Error [err], v)
    | (v, none) => (s, v)

/-- The closure `retError`, the common error return: `Payload` is left unset. -/
def retError (s : State) (err : GoError) : State :=
  let apiReturn : APIReturn := ⟨"FAIL", err, .nil⟩
  let (ret, _) := apiReturn.marshal
  let w := s.w.headerSet "Content-Type" "application/json"
  { s with w := w.Write ret }

/-- The closure `statusHandler`. -/
def statusHandler (wpacfg : WpaCfg) (s : State) : State :=
  match wpacfg.Status with
  | (_, some err) => s.Error [err]
  | (status, none) => apiPayloadReturn s "status" status

/-- The closure `disconnectHandler`; `wpacfg.Disconnect()` returns nothing. -/
def disconnectHandler (_wpacfg : WpaCfg) (s : State) : State :=
  apiPayloadReturn s "status" .emptyStruct

/-- The closure `connectHandler`. -/
def connectHandler (decode : Decoder) (wpacfg : WpaCfg) (r : Request) (s : State) : State :=
  let creds : WpaCredentials := ⟨"", ""⟩
  let (s, creds) := marshallPost decode s r creds
  let s := s.Info [] ["Connect Handler Got: ssid:|%s| psk:|%s|", creds.Ssid, creds.Psk]
  match wpacfg.ConnectNetwork creds with
  | (_, some err) => s.Error [err]
  | (connection, none) =>
    let apiReturn : APIReturn := ⟨"OK", "Connection", connection⟩
    match apiReturn.marshal with
    | (_, some err) => retError s err
    | (ret, none) =>
      let w := s.w.headerSet "Content-Type" "application/json"
      { s with w := w.Write ret }

/-- The closure `scanHandler`. -/
def scanHandler (wpacfg : WpaCfg) (s : State) : State :=
  let s := s.Info [] ["Got Scan"]
  match wpacfg.ScanNetworks with
  | (_, some err) => retError s err
  | (wpaNetworks, none) =>
    let apiReturn : APIReturn := ⟨"OK", "Networks", wpaNetworks⟩
    match apiReturn.marshal with
    | (_, some err) => retError s err
    | (ret, none) =>
      let w := s.w.headerSet "Content-Type" "application/json"
      { s with w := w.Write ret }

/-- The closure `killHandler`; `none` when the send on `messages` blocks. -/
def killHandler (s : State) : Option State :=
  match s.messages.send ⟨"kill"⟩ with
  | none => none
  | some ch =>
    let s := { s with messages := ch }
    let apiReturn : APIReturn := ⟨"OK", "Killing service.", .nil⟩
    match apiReturn.marshal with
    | (_, some err) => some (retError s err)
    | (ret, none) =>
      let w := s.w.headerSet "Content-Type" "application/json"
      some { s with w := w.Write ret }

/-- The middleware `logHandler` around `next`: one info entry with the remote
address, the method and the request URI, then the next handler. -/
def logHandler (next : Request → State → Option State) (r : Request) (s : State) :
    Option State :=
  let staticFields := [("remote", r.RemoteAddr), ("method", r.Method), ("url", r.RequestURI)]
  next r (s.Info staticFields ["HTTP"])

/-! ## `gorilla/mux`: the route table -/

/-- The five handler closures registered on the router. -/
inductive Handler where
  | statusHandler
  | connectHandler
  | disconnectHandler
  | scanHandler
  | killHandler
  deriving DecidableEq, Repr

/-- A route built by `r.HandleFunc(path, f)`, optionally followed by
`.Methods(...)`: a path matcher, a method matcher when `methods` is given, and
the handler. -/
structure Route where
  path : String
  methods : Option (List String)
  handler : Handler
  deriving DecidableEq, Repr

/-- The routes of `main`, in registration order: only `/connect` and
`/disconnect` carry a method matcher. -/
def routes : List Route :=
  [ ⟨"/status", none, .statusHandler⟩,
    ⟨"/connect", some ["POST"], .connectHandler⟩,
    ⟨"/disconnect", some ["POST"], .disconnectHandler⟩,
    ⟨"/scan", none, .scanHandler⟩,
    ⟨"/kill", none, .killHandler⟩ ]

/-- The `RouteMatch` of mux, reduced to the handler found and the flag that
`MatchErr` is `ErrMethodMismatch`. -/
structure RouteMatch where
  Handler : Option Handler
  methodMismatch : Bool
  deriving DecidableEq, Repr

/-- The method `Route.Match`: the matchers run in order, the path first (a
template without variables matches the identical path only), then the
methods.  A path mismatch rejects the route and leaves the match alone, a
method mismatch on a matching path rejects it and records
`ErrMethodMismatch`, and a full match clears a recorded mismatch and sets the
handler. -/
def Route.Match (route : Route) (req : Request) (m : RouteMatch) : Bool × RouteMatch :=
  if req.Path ≠ route.path then (false, m)
  else
    match route.methods with
    | some methods =>
      if methods.contains req.Method then (true, ⟨some route.handler, false⟩)
      else (false, { m with methodMismatch := true })
    | none => (true, ⟨some route.handler, false⟩)

/-- The loop of `Router.Match` over the routes: the first route that matches
wins. -/
def Router.Match (rs : List Route) (req : Request) (m : RouteMatch) : Bool × RouteMatch :=
  match rs with
  | [] => (false, m)
  | route :: rest =>
    match route.Match req m with
    | (true, m) => (true, m)
    | (false, m) => Router.Match rest req m

/-- What the router does with a request. -/
inductive Dispatch where
  /-- The handler of a matching route is run (behind the middleware). -/
  | run (h : Handler)
  /-- No route matched and a method matcher rejected the request: status 405. -/
  | methodNotAllowed
  /-- No route matched the path: `http.NotFoundHandler`, status 404. -/
  | notFound
  deriving DecidableEq, Repr

/-- The outcome of `Router.Match` over the routes of `main`, as
`Router.ServeHTTP` reads it: the handler of the match, else 405 when a method
matcher rejected the request, else 404. -/
def dispatch (req : Request) : Dispatch :=
  match Router.Match routes req ⟨none, false⟩ with
  | (true, ⟨some h, _⟩) => .run h
  | (_, m) => if m.methodMismatch then .methodNotAllowed else .notFound

/-- Runs one of the registered closures. -/
def Handler.serve (decode : Decoder) (wpacfg : WpaCfg) :
    Handler → Request → State → Option State
  | .statusHandler, _, s => some (Txwifi.statusHandler wpacfg s)
  | .connectHandler, r, s => some (Txwifi.connectHandler decode wpacfg r s)
  | .disconnectHandler, _, s => some (Txwifi.disconnectHandler wpacfg s)
  | .scanHandler, _, s => some (Txwifi.scanHandler wpacfg s)
  | .killHandler, _, s => Txwifi.killHandler s

/-- Splits a text at every occurrence of the character with code `sep`, like
`strings.Split`: the pieces between the separators, empty ones included. -/
def splitOn (sep : Nat) : List Char → List (List Char)
  | [] => [[]]
  | c :: cs =>
    if c.toNat = sep then [] :: splitOn sep cs
    else
      match splitOn sep cs with
      | [] => [[c]]
      | piece :: pieces => (c :: piece) :: pieces

/-- The element pass of `path.Clean`: empty elements and `.` are dropped, `..`
removes the element before it, is dropped at the root of a rooted path and is
kept at the start of a relative one; `out` holds the elements kept so far,
last one first. -/
def cleanElements (rooted : Bool) (out : List (List Char)) :
    List (List Char) → List (List Char)
  | [] => out.reverse
  | e :: es =>
    if e = [] ∨ e = ".".data then cleanElements rooted out es
    else if e = "..".data then
      match out with
      | top :: rest =>
        if rooted = false ∧ top = "..".data then cleanElements rooted (e :: out) es
        else cleanElements rooted rest es
      | [] => if rooted then cleanElements rooted [] es else cleanElements rooted [e] es
    else cleanElements rooted (e :: out) es

/-- The function `path.Clean`: the shortest path equivalent to `p` by purely
lexical processing; the empty relative result is `.`. -/
def pathClean (p : String) : String :=
  let rooted : Bool := p.data.head?.map Char.toNat = some 47
  let body := String.mk (List.intercalate "/".data
    (cleanElements rooted [] (splitOn 47 p.data)))
  if rooted then "/" ++ body else if body = "" then "." else body

/-- The function `cleanPath` of mux: the canonical form of a request path,
rooted, cleaned by `path.Clean`, with a trailing slash kept. -/
def cleanPath (p : String) : String :=
  if p = "" then "/"
  else
    let p := if p.data.head?.map Char.toNat = some 47 then p else "/" ++ p
    let np := pathClean p
    if p.data.getLast?.map Char.toNat = some 47 ∧ np ≠ "/" then np ++ "/" else np

/-- The method `Router.ServeHTTP` for the router of `main`: a path that is not
in canonical form is answered by a redirect (status 301) to the canonical
one; otherwise a matched handler runs inside `logHandler` (middleware is
applied to matches only), a method mismatch is answered by
`w.WriteHeader(405)`, anything else by `http.NotFound`. -/
def ServeHTTP (decode : Decoder) (wpacfg : WpaCfg) (req : Request) (s : State) :
    Option State :=
  if cleanPath req.Path ≠ req.Path then
    let w := s.w.headerSet "Location" req.CleanURL
    some { s with w := w.WriteHeader StatusMovedPermanently }
  else
    match dispatch req with
    | .run h => logHandler (h.serve decode wpacfg) req s
    | .methodNotAllowed => some { s with w := s.w.WriteHeader StatusMethodNotAllowed }
    | .notFound => some { s with w := httpError s.w "404 page not found" StatusNotFound }

/-! ## `gorilla/handlers`: the CORS layer -/

/-- The methods the CORS layer allows: the list given to
`handlers.AllowedMethods` in `main`. -/
def corsAllowedMethods : List String :=
  ["GET", "HEAD", "POST", "PUT", "OPTIONS", "DELETE"]

/-- The list `defaultCorsMethods` of the library. -/
def defaultCorsMethods : List String := ["GET", "HEAD", "POST"]

/-- The list `defaultCorsHeaders` of the library. -/
def defaultCorsHeaders : List String :=
  ["Accept", "Accept-Language", "Content-Language", "Origin"]

/-- The headers the CORS layer allows: the defaults, to which
`handlers.AllowedHeaders` adds the headers of `main` that are not there yet. -/
def corsAllowedHeaders : List String :=
  defaultCorsHeaders ++ ["Content-Type", "Authorization", "Content-Length", "X-Requested-With"]

/-- The predicate `unicode.IsSpace`. -/
def isSpace (c : Char) : Bool :=
  let n := c.toNat
  (9 ≤ n ∧ n ≤ 13) ∨ n = 32 ∨ n = 133 ∨ n = 160 ∨ n = 5760 ∨ (8192 ≤ n ∧ n ≤ 8202) ∨
    n = 8232 ∨ n = 8233 ∨ n = 8239 ∨ n = 8287 ∨ n = 12288

/-- The function `strings.TrimSpace`. -/
def trimSpace (cs : List Char) : List Char :=
  ((cs.dropWhile isSpace).reverse.dropWhile isSpace).reverse

/-- The bytes allowed in a header field name (the token characters). -/
def validHeaderFieldByte (c : Char) : Bool :=
  let n := c.toNat
  (48 ≤ n ∧ n ≤ 57) ∨ (65 ≤ n ∧ n ≤ 90) ∨ (97 ≤ n ∧ n ≤ 122) ∨
    [33, 35, 36, 37, 38, 39, 42, 43, 45, 46, 94, 95, 96, 124, 126].contains n

/-- The casing pass of `http.CanonicalHeaderKey`: upper case for the first
letter and for a letter after a hyphen, lower case for the others. -/
def canonicalCase (upper : Bool) : List Char → List Char
  | [] => []
  | c :: cs =>
    let n := c.toNat
    let c := if upper ∧ 97 ≤ n ∧ n ≤ 122 then Char.ofNat (n - 32)
      else if upper = false ∧ 65 ≤ n ∧ n ≤ 90 then Char.ofNat (n + 32)
      else c
    c :: canonicalCase (c.toNat = 45) cs

/-- The function `http.CanonicalHeaderKey`: a key made of token characters is
put in canonical case, any other text is returned unchanged. -/
def canonicalHeaderKey (cs : List Char) : List Char :=
  if cs.all validHeaderFieldByte then canonicalCase true cs else cs

/-- The loop of the CORS layer over the entries of
`Access-Control-Request-Headers`, already trimmed and canonical: empty entries
and default headers are skipped, an entry that is not allowed ends the request
(`none`, status 403), the others are collected. -/
def corsCollectHeaders : List String → Option (List String)
  | [] => some []
  | h :: rest =>
    if h = "" ∨ defaultCorsHeaders.contains h then corsCollectHeaders rest
    else if corsAllowedHeaders.contains h then (corsCollectHeaders rest).map fun hs => h :: hs
    else none

/-- The handler `handlers.CORS(originsOk, headersOk, methodsOk)(next)` of
`main`.  Every origin is allowed, so the origin check fails only for a request
without `Origin` header: such a request is passed on, unless its method is
`OPTIONS`, in which case the layer returns without writing.  With an origin,
an `OPTIONS` request is a preflight the layer answers itself (400 without
`Access-Control-Request-Method`, 405 for a method not allowed, 403 for a header
not allowed, else 200 with the CORS headers); any other request gets the
headers `Vary` and `Access-Control-Allow-Origin` and is passed on. -/
def CORS (next : Request → State → Option State) (r : Request) (s : State) : Option State :=
  let origin := r.headerGet "Origin"
  if origin = "" then
    if r.Method ≠ "OPTIONS" then next r s else some s
  else if r.Method = "OPTIONS" then
    match r.Header.lookup "Access-Control-Request-Method" with
    | none => some { s with w := s.w.WriteHeader StatusBadRequest }
    | some method =>
      if corsAllowedMethods.contains method = false then
        some { s with w := s.w.WriteHeader StatusMethodNotAllowed }
      else
        let requestHeaders := (splitOn 44 (r.headerGet "Access-Control-Request-Headers").data).map
          fun v => String.mk (canonicalHeaderKey (trimSpace v))
        match corsCollectHeaders requestHeaders with
        | none => some { s with w := s.w.WriteHeader StatusForbidden }
        | some allowedHeaders =>
          let w := s.w
          let w := if allowedHeaders ≠ [] then
              w.headerSet "Access-Control-Allow-Headers" (String.intercalate "," allowedHeaders)
            else w
          let w := if defaultCorsMethods.contains method = false then
              w.headerSet "Access-Control-Allow-Methods" method
            else w
          let w := w.headerSet "Vary" "Origin"
          let w := w.headerSet "Access-Control-Allow-Origin" "*"
          some { s with w := w.WriteHeader StatusOK }
  else
    let w := s.w.headerSet "Vary" "Origin"
    let w := w.headerSet "Access-Control-Allow-Origin" "*"
    next r { s with w := w }

/-- The handler `main` passes to `http.ListenAndServe`: the router behind the
CORS layer. -/
def mainHandler (decode : Decoder) (wpacfg : WpaCfg) (req : Request) (s : State) :
    Option State :=
  CORS (ServeHTTP decode wpacfg) req s

/-- What `net/http` does when the handler returns: if the header has not been
sent, it is sent with status 200. -/
def finishRequest (s : State) : State :=
  { s with w := s.w.WriteHeader StatusOK }

/-! ## Sample inputs -/

/-- The request body of the connect example. -/
def homeNetBody : String :=
  "\x7b\"ssid\":\"home-net\",\"psk\":\"secret123\"\x7d"

/-- A connect body for the same network with another passphrase. -/
def otherPskBody : String :=
  "\x7b\"ssid\":\"home-net\",\"psk\":\"correct-horse\"\x7d"

/-- A decoder that agrees with `encoding/json` on the bodies used in the
examples: `homeNetBody` and `otherPskBody` fill both fields, the truncated body
`\x7b` fails with the error of `encoding/json` and leaves the target untouched. -/
def sampleDecode : Decoder := fun body v =>
  if body = homeNetBody then (⟨"home-net", "secret123"⟩, none)
  else if body = otherPskBody then (⟨"home-net", "correct-horse"⟩, none)
  else (v, some "unexpected EOF")

/-- A request with the given method, path and body, without query and without
headers. -/
def sampleRequest (method path body : String) : Request :=
  ⟨method, path, "192.168.27.10:51234", path, (body, none), [], cleanPath path⟩

/-- A preflight request of a browser page for the given path: `OPTIONS` with an
origin, asking for `POST` with a `Content-Type` header. -/
def preflightRequest (path : String) : Request :=
  ⟨"OPTIONS", path, "192.168.27.10:51234", path, ("", none),
    [("Origin", "http://192.168.27.10"), ("Access-Control-Request-Method", "POST"),
      ("Access-Control-Request-Headers", "content-type")], cleanPath path⟩

/-- The state in which a handler starts: a fresh response writer, an empty log
and the channel as `main` made it. -/
def initial : State := ⟨ResponseWriter.fresh [], [], messages⟩

/-- A collaborator on which every call succeeds. -/
def sampleWpaCfg : WpaCfg where
  Status := (.value "\x7b\"wpa_state\":\"COMPLETED\"\x7d", none)
  ConnectNetwork := fun creds =>
    (.value ("\x7b\"ssid\":" ++ quote creds.Ssid ++ ",\"state\":\"COMPLETED\"\x7d"), none)
  ScanNetworks := (.value "\x7b\x7d", none)

/-- A collaborator on which every call fails. -/
def failingWpaCfg : WpaCfg where
  Status := (.nil, some "exit status 255")
  ConnectNetwork := fun _ => (.nil, some "exit status 255")
  ScanNetworks := (.nil, some "exit status 255")

/-- A collaborator whose results `json.Marshal` rejects. -/
def unsupportedWpaCfg : WpaCfg where
  Status := (.unsupported "json: unsupported value: NaN", none)
  ConnectNetwork := fun _ => (.unsupported "json: unsupported value: NaN", none)
  ScanNetworks := (.unsupported "json: unsupported value: NaN", none)

/-! ## Vocabulary of the statements -/

/-- Text of the envelope with the given status and message whose payload
member is the JSON text `payload`. -/
def envelope (status message payload : String) : String :=
  encodeObject [("status", quote status), ("message", quote message), ("payload", payload)]

/-- Keys of the members of an encoded `APIReturn`, in order. -/
def APIReturn.keys (a : APIReturn) (payload : String) : List String :=
  (a.members payload).map Prod.fst

/-- State in which a handler starts serving a request: nothing written yet,
whatever headers, log and channel content were there before. -/
def start (hdr : List (String × String)) (log : List LogEntry) (ch : Chan) : State :=
  ⟨ResponseWriter.fresh hdr, log, ch⟩

/-- Header map after `Set("Content-Type", "application/json")` on `hdr`. -/
def jsonHeader (hdr : List (String × String)) : List (String × String) :=
  ("Content-Type", "application/json") :: hdr.filter fun e => e.1 ≠ "Content-Type"

/-- Response writer the CORS layer hands to the router for a request that is
not `OPTIONS`: with an origin, the headers `Vary` and
`Access-Control-Allow-Origin` are set first. -/
def corsPassThrough (r : Request) (w : ResponseWriter) : ResponseWriter :=
  if r.headerGet "Origin" = "" then w
  else (w.headerSet "Vary" "Origin").headerSet "Access-Control-Allow-Origin" "*"

/-- The info entry `connectHandler` logs for the credentials it works with. -/
def connectLogEntry (creds : WpaCredentials) : LogEntry :=
  ⟨.info, [], ["Connect Handler Got: ssid:|%s| psk:|%s|", creds.Ssid, creds.Psk]⟩

/-! ## Basic facts about the codec and the response writer -/

/-- A character is determined by its code point. -/
theorem char_eq_of_toNat (c : Char) (n : Nat) (h : c.toNat = n) : c = Char.ofNat n := by
  subst h
  exact (Char.ofNat_toNat c).symm

/-- Reading a hexadecimal digit back gives its value. -/
theorem hexValue_hexDigit (k : Nat) (h : k < 16) : hexValue (hexDigit k) = k := by
  interval_cases k <;> decide

/-- The digit `0` has value zero. -/
theorem hexValue_zero : hexValue (Char.ofNat 48) = 0 := by decide

/-- Reading back the escaped form of one character gives that character and
continues with the rest. -/
theorem unescape_escapeChar (c : Char) (rest : List Char) :
    unescape ((escapeChar c).data ++ rest) = (unescape rest).map fun cs => c :: cs := by
  unfold escapeChar
  simp only
  split_ifs with h1 h2 h3 h4 h5 h6 h7 h8
  · have := char_eq_of_toNat c _ h1
    subst this
    show unescape (Char.ofNat 92 :: Char.ofNat 34 :: rest) = _
    rw [unescape]
    simp
  · have := char_eq_of_toNat c _ h2
    subst this
    show unescape (Char.ofNat 92 :: Char.ofNat 92 :: rest) = _
    rw [unescape]
    simp
  · have := char_eq_of_toNat c _ h3
    subst this
    show unescape (Char.ofNat 92 :: Char.ofNat 110 :: rest) = _
    rw [unescape]
    simp
  · have := char_eq_of_toNat c _ h4
    subst this
    show unescape (Char.ofNat 92 :: Char.ofNat 114 :: rest) = _
    rw [unescape]
    simp
  · have := char_eq_of_toNat c _ h5
    subst this
    show unescape (Char.ofNat 92 :: Char.ofNat 116 :: rest) = _
    rw [unescape]
    simp
  · have hlt : c.toNat < 64 := by omega
    show unescape (Char.ofNat 92 :: Char.ofNat 117 :: Char.ofNat 48 :: Char.ofNat 48 ::
      hexDigit (c.toNat / 16) :: hexDigit (c.toNat % 16) :: rest) = _
    rw [unescape]
    have e1 := hexValue_hexDigit (c.toNat / 16) (by omega)
    have e2 := hexValue_hexDigit (c.toNat % 16) (by omega)
    have e3 : c.toNat / 16 * 16 + c.toNat % 16 = c.toNat := by omega
    have e4 : ¬ (rest.length + 1 + 1 + 1 + 1 + 1 < 5) := by omega
    simp [hexValue_zero, e1, e2, e3, e4]
  · have := char_eq_of_toNat c _ h7
    subst this
    show unescape (Char.ofNat 92 :: Char.ofNat 117 :: Char.ofNat 50 :: Char.ofNat 48 ::
      Char.ofNat 50 :: Char.ofNat 56 :: rest) = _
    rw [unescape]
    have e4 : ¬ (rest.length + 1 + 1 + 1 + 1 + 1 < 5) := by omega
    have e5 : ((hexValue (Char.ofNat 50) * 16 + hexValue (Char.ofNat 48)) * 16 +
      hexValue (Char.ofNat 50)) * 16 + hexValue (Char.ofNat 56) = 8232 := by decide
    simp [e4, e5]
  · have := char_eq_of_toNat c _ h8
    subst this
    show unescape (Char.ofNat 92 :: Char.ofNat 117 :: Char.ofNat 50 :: Char.ofNat 48 ::
      Char.ofNat 50 :: Char.ofNat 57 :: rest) = _
    rw [unescape]
    have e4 : ¬ (rest.length + 1 + 1 + 1 + 1 + 1 < 5) := by omega
    have e5 : ((hexValue (Char.ofNat 50) * 16 + hexValue (Char.ofNat 48)) * 16 +
      hexValue (Char.ofNat 50)) * 16 + hexValue (Char.ofNat 57) = 8233 := by decide
    simp [e4, e5]
  · show unescape (c :: rest) = _
    rw [unescape]
    simp [h2]

/-- Reading back escaped text gives the original characters. -/
theorem unescape_escapeAll (cs rest : List Char) :
    unescape (escapeAll cs ++ rest) = (unescape rest).map fun tl => cs ++ tl := by
  induction cs with
  | nil => simp [escapeAll]
  | cons c cs ih =>
    rw [escapeAll, List.append_assoc, unescape_escapeChar, ih]
    simp [Option.map_map, Function.comp_def]

/-- Characters of a concatenation of strings. -/
theorem join_data (acc : String) (l : List String) :
    (l.foldl (fun r s => r ++ s) acc).data = acc.data ++ (l.map String.data).flatten := by
  induction l generalizing acc with
  | nil => simp
  | cons s l ih => simp [ih, String.data_append]

/-- Characters of a string literal: the escaped text between two quotes. -/
theorem quote_data (s : String) :
    (quote s).data = Char.ofNat 34 :: (escapeAll s.data ++ [Char.ofNat 34]) := by
  have h : ∀ cs : List Char, ((cs.map escapeChar).map String.data).flatten = escapeAll cs := by
    intro cs
    induction cs with
    | nil => rfl
    | cons c cs ih => simp only [List.map_cons, List.flatten_cons, escapeAll, ih]
  simp only [quote, String.join, String.data_append, join_data, h]
  rfl

/-- The string literal written by `json.Marshal` determines the string. -/
theorem quote_injective : Function.Injective quote := by
  intro s t h
  have hd := congrArg String.data h
  rw [quote_data, quote_data] at hd
  have hu := congrArg unescape (List.cons.inj hd).2
  rw [unescape_escapeAll, unescape_escapeAll] at hu
  have h1 : unescape [Char.ofNat 34] = some [Char.ofNat 34] := by
    rw [unescape]
    simp [unescape]
  rw [h1] at hu
  simp at hu
  exact String.ext hu


/-- Two envelopes with the same status and payload are the same text only when
their messages are the same string. -/
theorem envelope_message_injective (status payload m₁ m₂ : String)
    (h : envelope status m₁ payload = envelope status m₂ payload) : m₁ = m₂ := by
  apply quote_injective
  have hd := congrArg String.data h
  simp only [envelope, encodeObject, List.map_cons, List.map_nil, String.intercalate,
    String.intercalate.go, String.data_append, List.append_assoc, List.append_cancel_left_eq]
    at hd
  have h2 := List.append_inj_left' hd rfl
  exact String.ext h2

/-- An envelope whose payload is unset always encodes, with `null` as payload
member. -/
theorem marshal_nil (status message : String) :
    APIReturn.marshal ⟨status, message, .nil⟩ = (envelope status message "null", none) := by
  rfl

/-- An envelope encodes when its payload does. -/
theorem marshal_of_payload (status message : String) (payload : Payload) (enc : String)
    (h : marshalPayload payload = (enc, none)) :
    APIReturn.marshal ⟨status, message, payload⟩ = (envelope status message enc, none) := by
  simp [APIReturn.marshal, APIReturn.members, envelope, h]

/-- An envelope whose payload is rejected is rejected with the same error and
nil bytes. -/
theorem marshal_unsupported (status message : String) (err : GoError) :
    APIReturn.marshal ⟨status, message, .unsupported err⟩ = ("", some err) := by
  rfl

/-- What `retError` does to the state: one `Write` of the failure envelope
after setting the content type; log and channel are untouched. -/
theorem retError_eq (s : State) (err : GoError) :
    retError s err =
      ⟨(s.w.headerSet "Content-Type" "application/json").Write (envelope "FAIL" err "null"),
        s.blog, s.messages⟩ := by
  rfl

/-- Writing to a fresh response writer after setting the content type: status
200, the content type among the headers sent, and the bytes as the only
write. -/
theorem fresh_set_write (hdr : List (String × String)) (b : String) :
    ((ResponseWriter.fresh hdr).headerSet "Content-Type" "application/json").Write b =
      ⟨jsonHeader hdr, some 200, jsonHeader hdr, [b]⟩ := by
  rfl

/-- The content type sent after `Set("Content-Type", "application/json")`. -/
theorem lookup_jsonHeader (hdr : List (String × String)) :
    (jsonHeader hdr).lookup "Content-Type" = some "application/json" := by
  simp [jsonHeader, List.lookup]

/-! ## Collaborator errors -/

/-- C1, the behaviour of the code: when the body decoded and `ConnectNetwork`
returns an error, `connectHandler` logs the credentials and the error and
returns; the response writer is left as it was, so no envelope is written. -/
theorem connectHandler_error_writes_nothing (decode : Decoder) (wpacfg : WpaCfg)
    (r : Request) (s : State) (bytes : String) (creds : WpaCredentials)
    (connection : Payload) (err : GoError)
    (hbody : r.Body = (bytes, none))
    (hdecode : decode bytes ⟨"", ""⟩ = (creds, none))
    (hconnect : wpacfg.ConnectNetwork creds = (connection, some err)) :
    (connectHandler decode wpacfg r s).w = s.w ∧
      (connectHandler decode wpacfg r s).blog =
        s.blog ++ [connectLogEntry creds, ⟨.error, [], [err]⟩] := by
  simp [connectHandler, marshallPost, hbody, hdecode, hconnect, State.Info, State.Error,
    connectLogEntry]

/-- C1, witness: the body of the connect example against a collaborator that
fails leaves the response without status line and without body. -/
theorem connectHandler_error_writes_nothing_witness :
    (connectHandler sampleDecode failingWpaCfg
        (sampleRequest "POST" "/connect" homeNetBody) initial).w = ResponseWriter.fresh [] ∧
      (connectHandler sampleDecode failingWpaCfg
        (sampleRequest "POST" "/connect" homeNetBody) initial).blog =
        [connectLogEntry ⟨"home-net", "secret123"⟩, ⟨.error, [], ["exit status 255"]⟩] :=
  connectHandler_error_writes_nothing sampleDecode failingWpaCfg
    (sampleRequest "POST" "/connect" homeNetBody) initial homeNetBody
    ⟨"home-net", "secret123"⟩ .nil "exit status 255" rfl (by decide) rfl

/-- C2, the behaviour of the code: when `Status()` returns an error,
`statusHandler` logs the error text and returns; the response writer is left as
it was, so the request gets no envelope. -/
theorem statusHandler_error_writes_nothing (wpacfg : WpaCfg) (s : State)
    (status : Payload) (err : GoError) (hstatus : wpacfg.Status = (status, some err)) :
    (statusHandler wpacfg s).w = s.w ∧
      (statusHandler wpacfg s).blog = s.blog ++ [⟨.error, [], [err]⟩] := by
  simp [statusHandler, hstatus, State.Error]

/-- C2, witness: a failing collaborator leaves the response of `statusHandler`
without status line and without body. -/
theorem statusHandler_error_writes_nothing_witness :
    (statusHandler failingWpaCfg initial).w = ResponseWriter.fresh [] ∧
      (statusHandler failingWpaCfg initial).blog = [⟨.error, [], ["exit status 255"]⟩] :=
  statusHandler_error_writes_nothing failingWpaCfg initial .nil "exit status 255" rfl

/-- C4: when `ScanNetworks()` returns an error, `scanHandler` sends status
200 with content type `application/json` and performs exactly one write, the
envelope with status `FAIL` and the error text, and no other text, as
message. -/
theorem scanHandler_error_envelope (wpacfg : WpaCfg) (hdr : List (String × String))
    (log : List LogEntry) (ch : Chan) (networks : Payload) (err : GoError)
    (hscan : wpacfg.ScanNetworks = (networks, some err)) :
    (scanHandler wpacfg (start hdr log ch)).w.written = [envelope "FAIL" err "null"] ∧
      (scanHandler wpacfg (start hdr log ch)).w.body = envelope "FAIL" err "null" ∧
      (scanHandler wpacfg (start hdr log ch)).w.status = some 200 ∧
      (scanHandler wpacfg (start hdr log ch)).w.sentHeader.lookup "Content-Type" =
        some "application/json" ∧
      (∀ message, (scanHandler wpacfg (start hdr log ch)).w.written =
        [envelope "FAIL" message "null"] → message = err) := by
  have h : scanHandler wpacfg (start hdr log ch) =
      ⟨⟨jsonHeader hdr, some 200, jsonHeader hdr, [envelope "FAIL" err "null"]⟩,
        log ++ [⟨.info, [], ["Got Scan"]⟩], ch⟩ := by
    simp [scanHandler, hscan, State.Info, retError_eq, start, fresh_set_write]
  rw [h]
  refine ⟨rfl, ?_, rfl, lookup_jsonHeader hdr, ?_⟩
  · simp [ResponseWriter.body, String.join]
  · intro message hm
    exact (envelope_message_injective "FAIL" "null" err message (List.cons.inj hm).1).symm

/-- C4, witness: a failing collaborator, with the envelope spelled out. -/
theorem scanHandler_error_envelope_witness :
    (scanHandler failingWpaCfg initial).w.written =
        ["\x7b\"status\":\"FAIL\",\"message\":\"exit status 255\",\"payload\":null\x7d"] ∧
      (scanHandler failingWpaCfg initial).w.body =
        "\x7b\"status\":\"FAIL\",\"message\":\"exit status 255\",\"payload\":null\x7d" ∧
      (scanHandler failingWpaCfg initial).w.status = some 200 ∧
      (scanHandler failingWpaCfg initial).w.sentHeader.lookup "Content-Type" =
        some "application/json" :=
  have h := scanHandler_error_envelope failingWpaCfg [] [] messages .nil "exit status 255" rfl
  ⟨h.1, h.2.1, h.2.2.1, h.2.2.2.1⟩

/-! ## The failure envelope -/

/-- C5, counterexample: the envelope `retError` writes for the error `boom` has
a third member, `payload`, with value `null`. -/
theorem retError_has_payload_member :
    (retError initial "boom").w.written =
        ["\x7b\"status\":\"FAIL\",\"message\":\"boom\",\"payload\":null\x7d"] ∧
      APIReturn.keys ⟨"FAIL", "boom", .nil⟩ "null" = ["status", "message", "payload"] := by
  decide

/-- C5, amended: for every error, `retError` writes the encoding of the
envelope with status `FAIL` and the error text as message, an object with the
three keys `status`, `message` and `payload`, the payload being `null`. -/
theorem retError_envelope (s : State) (err : GoError) :
    (retError s err).w.written =
        s.w.written ++ [encodeObject [("status", quote "FAIL"), ("message", quote err),
          ("payload", "null")]] ∧
      APIReturn.marshal ⟨"FAIL", err, .nil⟩ =
        (encodeObject (APIReturn.members ⟨"FAIL", err, .nil⟩ "null"), none) ∧
      APIReturn.keys ⟨"FAIL", err, .nil⟩ "null" = ["status", "message", "payload"] := by
  refine ⟨?_, rfl, rfl⟩
  rw [retError_eq]
  cases hs : s.w.status <;>
    simp [ResponseWriter.Write, ResponseWriter.WriteHeader, ResponseWriter.headerSet, hs,
      envelope]

/-! ## Success envelopes -/

/-- C3, counterexample: `ScanNetworks()` succeeds with a result that
`json.Marshal` rejects, and `scanHandler` answers with the failure envelope
carrying the encoder error instead of an `OK` envelope. -/
theorem scanHandler_unserializable_result :
    unsupportedWpaCfg.ScanNetworks = (.unsupported "json: unsupported value: NaN", none) ∧
      (scanHandler unsupportedWpaCfg initial).w.written =
        ["\x7b\"status\":\"FAIL\",\"message\":\"json: unsupported value: NaN\"," ++
          "\"payload\":null\x7d"] := by
  decide

/-- C3, amended: when the collaborator call succeeds and its result encodes as
`enc` (and, for connect, the body decoded), the handler performs exactly one
write, the envelope with status `OK`, the documented message and `enc` as
payload; `disconnectHandler` always writes message `status` with the empty
object as payload. -/
theorem success_envelopes (decode : Decoder) (wpacfg : WpaCfg) (r : Request)
    (hdr : List (String × String)) (log : List LogEntry) (ch : Chan) :
    (∀ status enc, wpacfg.Status = (status, none) → marshalPayload status = (enc, none) →
        (statusHandler wpacfg (start hdr log ch)).w.written = [envelope "OK" "status" enc]) ∧
      (disconnectHandler wpacfg (start hdr log ch)).w.written =
        [envelope "OK" "status" "\x7b\x7d"] ∧
      (∀ bytes creds connection enc, r.Body = (bytes, none) →
        decode bytes ⟨"", ""⟩ = (creds, none) →
        wpacfg.ConnectNetwork creds = (connection, none) →
        marshalPayload connection = (enc, none) →
        (connectHandler decode wpacfg r (start hdr log ch)).w.written =
          [envelope "OK" "Connection" enc]) ∧
      (∀ networks enc, wpacfg.ScanNetworks = (networks, none) →
        marshalPayload networks = (enc, none) →
        (scanHandler wpacfg (start hdr log ch)).w.written =
          [envelope "OK" "Networks" enc]) := by
  refine ⟨?_, rfl, ?_, ?_⟩
  · intro status enc hstatus henc
    simp [statusHandler, hstatus, apiPayloadReturn, marshal_of_payload _ _ _ _ henc, start,
      fresh_set_write]
  · intro bytes creds connection enc hbody hdecode hconnect henc
    simp [connectHandler, marshallPost, hbody, hdecode, hconnect, State.Info,
      marshal_of_payload _ _ _ _ henc, start, fresh_set_write]
  · intro networks enc hscan henc
    simp [scanHandler, hscan, State.Info, marshal_of_payload _ _ _ _ henc, start,
      fresh_set_write]

/-- C3, witness: a collaborator on which every call succeeds, and the connect
example body. -/
theorem success_envelopes_witness :
    (statusHandler sampleWpaCfg initial).w.written =
        ["\x7b\"status\":\"OK\",\"message\":\"status\"," ++
          "\"payload\":\x7b\"wpa_state\":\"COMPLETED\"\x7d\x7d"] ∧
      (disconnectHandler sampleWpaCfg initial).w.written =
        ["\x7b\"status\":\"OK\",\"message\":\"status\",\"payload\":\x7b\x7d\x7d"] ∧
      (connectHandler sampleDecode sampleWpaCfg
          (sampleRequest "POST" "/connect" homeNetBody) initial).w.written =
        ["\x7b\"status\":\"OK\",\"message\":\"Connection\"," ++
          "\"payload\":\x7b\"ssid\":\"home-net\",\"state\":\"COMPLETED\"\x7d\x7d"] ∧
      (scanHandler sampleWpaCfg initial).w.written =
        ["\x7b\"status\":\"OK\",\"message\":\"Networks\",\"payload\":\x7b\x7d\x7d"] :=
  have h := success_envelopes sampleDecode sampleWpaCfg
    (sampleRequest "POST" "/connect" homeNetBody) [] [] messages
  ⟨h.1 _ _ rfl rfl, h.2.1,
    h.2.2.1 homeNetBody ⟨"home-net", "secret123"⟩ _ _ rfl (by decide) rfl rfl,
    h.2.2.2 _ _ rfl rfl⟩

/-! ## The route table -/

/-- Setting a header writes nothing. -/
theorem written_headerSet (w : ResponseWriter) (key value : String) :
    (w.headerSet key value).written = w.written := by
  rfl

/-- Sending the header writes nothing. -/
theorem written_WriteHeader (w : ResponseWriter) (code : Nat) :
    (w.WriteHeader code).written = w.written := by
  unfold ResponseWriter.WriteHeader
  cases w.status <;> rfl

/-- A request that is not `OPTIONS` passes the CORS layer: the next handler
runs, on a response writer that has the CORS headers when there is an origin. -/
theorem CORS_pass (next : Request → State → Option State) (r : Request) (s : State)
    (hm : r.Method ≠ "OPTIONS") :
    CORS next r s = next r ⟨corsPassThrough r s.w, s.blog, s.messages⟩ := by
  by_cases ho : r.headerGet "Origin" = "" <;> simp [CORS, corsPassThrough, ho, hm]

/-- An `OPTIONS` request is answered by the CORS layer alone: the answer is
the same whatever handler stands behind it, and it leaves body, log and channel
as they were. -/
theorem CORS_options (next : Request → State → Option State) (r : Request) (s : State)
    (hm : r.Method = "OPTIONS") :
    CORS next r s = CORS (fun _ _ => none) r s ∧
      (CORS next r s).map (fun t => (t.w.written, t.blog, t.messages)) =
        some (s.w.written, s.blog, s.messages) := by
  constructor
  · by_cases ho : r.headerGet "Origin" = "" <;> simp [CORS, ho, hm]
  · by_cases ho : r.headerGet "Origin" = ""
    · simp [CORS, ho, hm]
    · simp only [CORS, ho, hm, if_true, if_false]
      split
      · simp [written_WriteHeader]
      · split
        · simp [written_WriteHeader]
        · split
          · simp [written_WriteHeader]
          · simp [written_WriteHeader, written_headerSet]
            split_ifs <;> simp [written_headerSet]

/-- The registered paths are in canonical form. -/
theorem cleanPath_registered :
    cleanPath "/status" = "/status" ∧ cleanPath "/connect" = "/connect" ∧
      cleanPath "/disconnect" = "/disconnect" ∧ cleanPath "/scan" = "/scan" ∧
      cleanPath "/kill" = "/kill" := by
  decide

/-- C6, counterexample: `POST /status` is dispatched to `statusHandler` and
answered with status 200 and the status envelope, not with 405; an `OPTIONS`
request to `/connect`, preflight or not, is answered with status 200 by the
CORS layer, not with 405; and `GET //reboot` is answered with a redirect to
`/reboot`, not with 404. -/
theorem post_status_is_dispatched :
    dispatch (sampleRequest "POST" "/status" "") = .run .statusHandler ∧
      (mainHandler sampleDecode sampleWpaCfg (sampleRequest "POST" "/status" "") initial).map
          (fun t => (t.w.status, t.w.written)) =
        some (some 200, ["\x7b\"status\":\"OK\",\"message\":\"status\"," ++
          "\"payload\":\x7b\"wpa_state\":\"COMPLETED\"\x7d\x7d"]) ∧
      (mainHandler sampleDecode sampleWpaCfg (preflightRequest "/connect") initial).map
          (fun t => (t.w.status, t.w.written, t.blog)) = some (some 200, [], []) ∧
      (mainHandler sampleDecode sampleWpaCfg (sampleRequest "OPTIONS" "/connect" "")
          initial).map (fun t => ((finishRequest t).w.status, t.w.written, t.blog)) =
        some (some 200, [], []) ∧
      (mainHandler sampleDecode sampleWpaCfg (sampleRequest "GET" "//reboot" "") initial).map
          (fun t => (t.w.status, t.w.sentHeader, t.w.written)) =
        some (some 301, [("Location", "/reboot")], []) := by
  decide

/-- C6, amended: the CORS layer answers every `OPTIONS` request itself, without
reaching the route table (nothing written, logged or sent).  For any other
method, `/status`, `/scan` and `/kill` run their handlers behind the access
log, `/connect` and `/disconnect` do so for `POST` and are answered with 405
and nothing else for any other method, a path in canonical form other than
these five is answered by the 404 page, and a path not in canonical form by a
redirect (status 301) with no handler run. -/
theorem routes_dispatch (decode : Decoder) (wpacfg : WpaCfg) (req : Request) (s : State) :
    (req.Method = "OPTIONS" →
        mainHandler decode wpacfg req s = CORS (fun _ _ => none) req s ∧
        (mainHandler decode wpacfg req s).map (fun t => (t.w.written, t.blog, t.messages)) =
          some (s.w.written, s.blog, s.messages)) ∧
      (req.Method ≠ "OPTIONS" →
        (req.Path = "/status" →
          mainHandler decode wpacfg req s =
            logHandler (fun _ t => some (statusHandler wpacfg t)) req
              ⟨corsPassThrough req s.w, s.blog, s.messages⟩) ∧
        (req.Path = "/scan" →
          mainHandler decode wpacfg req s =
            logHandler (fun _ t => some (scanHandler wpacfg t)) req
              ⟨corsPassThrough req s.w, s.blog, s.messages⟩) ∧
        (req.Path = "/kill" →
          mainHandler decode wpacfg req s =
            logHandler (fun _ t => killHandler t) req
              ⟨corsPassThrough req s.w, s.blog, s.messages⟩) ∧
        (req.Path = "/connect" → req.Method = "POST" →
          mainHandler decode wpacfg req s =
            logHandler (fun r t => some (connectHandler decode wpacfg r t)) req
              ⟨corsPassThrough req s.w, s.blog, s.messages⟩) ∧
        (req.Path = "/disconnect" → req.Method = "POST" →
          mainHandler decode wpacfg req s =
            logHandler (fun _ t => some (disconnectHandler wpacfg t)) req
              ⟨corsPassThrough req s.w, s.blog, s.messages⟩) ∧
        ((req.Path = "/connect" ∨ req.Path = "/disconnect") → req.Method ≠ "POST" →
          mainHandler decode wpacfg req s =
            some ⟨(corsPassThrough req s.w).WriteHeader StatusMethodNotAllowed, s.blog,
              s.messages⟩) ∧
        (cleanPath req.Path = req.Path →
          req.Path ∉ ["/status", "/connect", "/disconnect", "/scan", "/kill"] →
          mainHandler decode wpacfg req s =
            some ⟨httpError (corsPassThrough req s.w) "404 page not found" StatusNotFound,
              s.blog, s.messages⟩) ∧
        (cleanPath req.Path ≠ req.Path →
          mainHandler decode wpacfg req s =
            some ⟨((corsPassThrough req s.w).headerSet "Location" req.CleanURL).WriteHeader
              StatusMovedPermanently, s.blog, s.messages⟩)) := by
  obtain ⟨c1, c2, c3, c4, c5⟩ := cleanPath_registered
  refine ⟨fun hm => CORS_options _ req s hm, fun hm => ?_⟩
  simp only [mainHandler, CORS_pass _ req s hm]
  refine ⟨?_, ?_, ?_, ?_, ?_, ?_, ?_, ?_⟩
  · intro hp
    simp [ServeHTTP, dispatch, Router.Match, routes, Route.Match, hp, c1, logHandler,
      Handler.serve]
  · intro hp
    simp [ServeHTTP, dispatch, Router.Match, routes, Route.Match, hp, c4, logHandler,
      Handler.serve]
  · intro hp
    simp [ServeHTTP, dispatch, Router.Match, routes, Route.Match, hp, c5, logHandler,
      Handler.serve]
  · intro hp hpost
    simp [ServeHTTP, dispatch, Router.Match, routes, Route.Match, hp, hpost, c2, logHandler,
      Handler.serve]
  · intro hp hpost
    simp [ServeHTTP, dispatch, Router.Match, routes, Route.Match, hp, hpost, c3, logHandler,
      Handler.serve]
  · intro hp hpost
    rcases hp with hp | hp
    · simp [ServeHTTP, dispatch, Router.Match, routes, Route.Match, hp, hpost, c2]
    · simp [ServeHTTP, dispatch, Router.Match, routes, Route.Match, hp, hpost, c3]
  · intro hc hp
    simp only [List.mem_cons, List.mem_singleton, List.not_mem_nil, or_false, not_or] at hp
    obtain ⟨h1, h2, h3, h4, h5⟩ := hp
    simp [ServeHTTP, dispatch, Router.Match, routes, Route.Match, hc, h1, h2, h3, h4, h5]
  · intro hc
    simp [ServeHTTP, hc]

/-- C6, witness: `OPTIONS /kill` sends nothing on the channel, `GET /status`
and `POST /connect` run their handlers, `GET /connect` is answered with 405,
`GET /reboot` with 404 and `GET //reboot` with a redirect. -/
theorem routes_dispatch_witness :
    (mainHandler sampleDecode sampleWpaCfg (sampleRequest "OPTIONS" "/kill" "") initial).map
        (fun t => (t.w.written, t.blog, t.messages)) = some ([], [], messages) ∧
      mainHandler sampleDecode sampleWpaCfg (sampleRequest "GET" "/status" "") initial =
        logHandler (fun _ t => some (statusHandler sampleWpaCfg t))
          (sampleRequest "GET" "/status" "") initial ∧
      mainHandler sampleDecode sampleWpaCfg (sampleRequest "POST" "/connect" homeNetBody)
          initial =
        logHandler (fun r t => some (connectHandler sampleDecode sampleWpaCfg r t))
          (sampleRequest "POST" "/connect" homeNetBody) initial ∧
      mainHandler sampleDecode sampleWpaCfg (sampleRequest "GET" "/connect" "") initial =
        some ⟨initial.w.WriteHeader StatusMethodNotAllowed, [], messages⟩ ∧
      mainHandler sampleDecode sampleWpaCfg (sampleRequest "GET" "/reboot" "") initial =
        some ⟨httpError initial.w "404 page not found" StatusNotFound, [], messages⟩ ∧
      mainHandler sampleDecode sampleWpaCfg (sampleRequest "GET" "//reboot" "") initial =
        some ⟨(initial.w.headerSet "Location" "/reboot").WriteHeader StatusMovedPermanently,
          [], messages⟩ :=
  ⟨((routes_dispatch sampleDecode sampleWpaCfg (sampleRequest "OPTIONS" "/kill" "")
      initial).1 rfl).2,
    ((routes_dispatch sampleDecode sampleWpaCfg (sampleRequest "GET" "/status" "")
      initial).2 (by decide)).1 rfl,
    ((routes_dispatch sampleDecode sampleWpaCfg (sampleRequest "POST" "/connect" homeNetBody)
      initial).2 (by decide)).2.2.2.1 rfl rfl,
    ((routes_dispatch sampleDecode sampleWpaCfg (sampleRequest "GET" "/connect" "")
      initial).2 (by decide)).2.2.2.2.2.1 (Or.inl rfl) (by decide),
    ((routes_dispatch sampleDecode sampleWpaCfg (sampleRequest "GET" "/reboot" "")
      initial).2 (by decide)).2.2.2.2.2.2.1 (by decide) (by decide),
    ((routes_dispatch sampleDecode sampleWpaCfg (sampleRequest "GET" "//reboot" "")
      initial).2 (by decide)).2.2.2.2.2.2.2 (by decide)⟩

/-! ## What `connectHandler` logs -/

/-- C7, counterexample: two connect requests for the same ssid with different
passphrases produce different logs, and the passphrase is an argument of the
logged entry. -/
theorem connect_logs_differ_on_psk :
    (connectHandler sampleDecode sampleWpaCfg
        (sampleRequest "POST" "/connect" homeNetBody) initial).blog =
        [⟨.info, [], ["Connect Handler Got: ssid:|%s| psk:|%s|", "home-net", "secret123"]⟩] ∧
      (connectHandler sampleDecode sampleWpaCfg
        (sampleRequest "POST" "/connect" otherPskBody) initial).blog =
        [⟨.info, [], ["Connect Handler Got: ssid:|%s| psk:|%s|", "home-net",
          "correct-horse"]⟩] ∧
      (connectHandler sampleDecode sampleWpaCfg
        (sampleRequest "POST" "/connect" homeNetBody) initial).blog ≠
      (connectHandler sampleDecode sampleWpaCfg
        (sampleRequest "POST" "/connect" otherPskBody) initial).blog := by
  decide

/-- The log of `connectHandler` after a body that decoded to `creds`: the info
entry with both credentials, followed by the collaborator error if there is
one. -/
theorem connectHandler_blog (decode : Decoder) (wpacfg : WpaCfg) (r : Request) (s : State)
    (bytes : String) (creds : WpaCredentials)
    (hbody : r.Body = (bytes, none)) (hdecode : decode bytes ⟨"", ""⟩ = (creds, none)) :
    (connectHandler decode wpacfg r s).blog =
      s.blog ++ connectLogEntry creds ::
        (match (wpacfg.ConnectNetwork creds).2 with
          | some err => [⟨.error, [], [err]⟩]
          | none => []) := by
  rcases hc : wpacfg.ConnectNetwork creds with ⟨connection, _ | err⟩
  · rcases hm : APIReturn.marshal ⟨"OK", "Connection", connection⟩ with ⟨ret, _ | e⟩ <;>
      simp [connectHandler, marshallPost, hbody, hdecode, hc, hm, State.Info,
        connectLogEntry, retError_eq]
  · simp [connectHandler, marshallPost, hbody, hdecode, hc, State.Info, State.Error,
      connectLogEntry]

/-- C7, amended: after a body that decoded to credentials, the entry
`connectHandler` logs carries the ssid and the psk as arguments, so two connect
requests with the same ssid and different psk values leave different logs. -/
theorem connect_log_carries_psk (decode : Decoder) (wpacfg₁ wpacfg₂ : WpaCfg)
    (r₁ r₂ : Request) (s : State) (b₁ b₂ : String) (c₁ c₂ : WpaCredentials)
    (hb₁ : r₁.Body = (b₁, none)) (hd₁ : decode b₁ ⟨"", ""⟩ = (c₁, none))
    (hb₂ : r₂.Body = (b₂, none)) (hd₂ : decode b₂ ⟨"", ""⟩ = (c₂, none))
    (_hssid : c₁.Ssid = c₂.Ssid) (hpsk : c₁.Psk ≠ c₂.Psk) :
    (⟨.info, [], ["Connect Handler Got: ssid:|%s| psk:|%s|", c₁.Ssid, c₁.Psk]⟩ : LogEntry) ∈
        (connectHandler decode wpacfg₁ r₁ s).blog ∧
      (connectHandler decode wpacfg₁ r₁ s).blog ≠ (connectHandler decode wpacfg₂ r₂ s).blog := by
  have h₁ := connectHandler_blog decode wpacfg₁ r₁ s b₁ c₁ hb₁ hd₁
  have h₂ := connectHandler_blog decode wpacfg₂ r₂ s b₂ c₂ hb₂ hd₂
  rw [h₁, h₂]
  refine ⟨by simp [connectLogEntry], ?_⟩
  intro h
  have h := List.append_cancel_left h
  simp only [List.cons.injEq, connectLogEntry, LogEntry.mk.injEq, true_and, and_true] at h
  exact hpsk h.1.2

/-- C7, witness: the two sample bodies, same ssid and different psk. -/
theorem connect_log_carries_psk_witness :
    (⟨.info, [], ["Connect Handler Got: ssid:|%s| psk:|%s|", "home-net", "secret123"]⟩ :
        LogEntry) ∈ (connectHandler sampleDecode sampleWpaCfg
          (sampleRequest "POST" "/connect" homeNetBody) initial).blog ∧
      (connectHandler sampleDecode sampleWpaCfg
        (sampleRequest "POST" "/connect" homeNetBody) initial).blog ≠
      (connectHandler sampleDecode failingWpaCfg
        (sampleRequest "POST" "/connect" otherPskBody) initial).blog :=
  connect_log_carries_psk sampleDecode sampleWpaCfg failingWpaCfg
    (sampleRequest "POST" "/connect" homeNetBody) (sampleRequest "POST" "/connect" otherPskBody)
    initial homeNetBody otherPskBody ⟨"home-net", "secret123"⟩ ⟨"home-net", "correct-horse"⟩
    rfl (by decide) rfl (by decide) rfl (by decide)

/-! ## The command channel -/

/-- C8: with the channel of capacity 1 empty, `killHandler` returns, the
channel then holds the single message `kill`, which the worker receives once,
and the response is the envelope with status `OK` and message
`Killing service.`; the send blocks exactly when the channel holds a message. -/
theorem killHandler_sends_once (s : State) (hcap : s.messages.cap = 1) :
    (s.messages.buf = [] →
        killHandler s =
          some ⟨(s.w.headerSet "Content-Type" "application/json").Write
            (envelope "OK" "Killing service." "null"), s.blog, ⟨1, [⟨"kill"⟩]⟩⟩ ∧
        Chan.recv ⟨1, [⟨"kill"⟩]⟩ = some (⟨"kill"⟩, ⟨1, []⟩) ∧
        Chan.recv ⟨1, []⟩ = none) ∧
      (killHandler s = none ↔ s.messages.buf ≠ []) := by
  obtain ⟨w, blog, ⟨cap, buf⟩⟩ := s
  simp only at hcap
  subst hcap
  constructor
  · intro hbuf
    simp only at hbuf
    subst hbuf
    exact ⟨rfl, rfl, rfl⟩
  · cases buf with
    | nil => simp [killHandler, Chan.send, marshal_nil]
    | cons m rest => simp [killHandler, Chan.send]

/-- C8, witness: the channel as `main` makes it; a second kill request before
the worker has received the first one blocks. -/
theorem killHandler_sends_once_witness :
    (killHandler initial).map (fun s => (s.w.written, s.w.status, s.messages)) =
        some (["\x7b\"status\":\"OK\",\"message\":\"Killing service.\",\"payload\":null\x7d"],
          some 200, ⟨1, [⟨"kill"⟩]⟩) ∧
      ((killHandler initial).bind killHandler = none) :=
  ⟨by rw [((killHandler_sends_once initial rfl).1 rfl).1]; rfl, by decide⟩

/-! ## Decode failures -/

/-- C9, the behaviour of the code: when the body fails to decode,
`connectHandler` answers with status 500 and the error text, and then goes on
with the credentials the decoder left behind; when the collaborator accepts
them, the `OK` envelope is written after the error text. -/
theorem connectHandler_decode_error_continues (decode : Decoder) (wpacfg : WpaCfg)
    (r : Request) (hdr : List (String × String)) (log : List LogEntry) (ch : Chan)
    (bytes : String) (creds : WpaCredentials) (err : GoError) (connection : Payload)
    (enc : String)
    (hbody : r.Body = (bytes, none))
    (hdecode : decode bytes ⟨"", ""⟩ = (creds, some err))
    (hconnect : wpacfg.ConnectNetwork creds = (connection, none))
    (henc : marshalPayload connection = (enc, none)) :
    (connectHandler decode wpacfg r (start hdr log ch)).w.status = some 500 ∧
      (connectHandler decode wpacfg r (start hdr log ch)).w.written =
        [err ++ "\n", envelope "OK" "Connection" enc] ∧
      (connectHandler decode wpacfg r (start hdr log ch)).blog =
        log ++ [⟨.error, [], [err]⟩, connectLogEntry creds] := by
  simp [connectHandler, marshallPost, hbody, hdecode, hconnect, State.Info, State.Error,
    marshal_of_payload _ _ _ _ henc, start, httpError, ResponseWriter.fresh,
    ResponseWriter.Write, ResponseWriter.WriteHeader, ResponseWriter.headerSet,
    StatusInternalServerError, connectLogEntry]

/-- C9, witness: a truncated body and a collaborator that accepts empty
credentials. -/
theorem connectHandler_decode_error_continues_witness :
    (connectHandler sampleDecode sampleWpaCfg
        (sampleRequest "POST" "/connect" "\x7b") initial).w.status = some 500 ∧
      (connectHandler sampleDecode sampleWpaCfg
        (sampleRequest "POST" "/connect" "\x7b") initial).w.written =
        ["unexpected EOF\n", "\x7b\"status\":\"OK\",\"message\":\"Connection\"," ++
          "\"payload\":\x7b\"ssid\":\"\",\"state\":\"COMPLETED\"\x7d\x7d"] ∧
      (connectHandler sampleDecode sampleWpaCfg
        (sampleRequest "POST" "/connect" "\x7b") initial).blog =
        [⟨.error, [], ["unexpected EOF"]⟩, connectLogEntry ⟨"", ""⟩] :=
  connectHandler_decode_error_continues sampleDecode sampleWpaCfg
    (sampleRequest "POST" "/connect" "\x7b") [] [] messages "\x7b" ⟨"", ""⟩
    "unexpected EOF" _ _ rfl (by decide) rfl rfl

/-- When the body fails to decode and the collaborator fails too, the response
is status 500 with the decode error text as the only write. -/
theorem connectHandler_decode_error_collaborator_error (decode : Decoder) (wpacfg : WpaCfg)
    (r : Request) (hdr : List (String × String)) (log : List LogEntry) (ch : Chan)
    (bytes : String) (creds : WpaCredentials) (err cerr : GoError) (connection : Payload)
    (hbody : r.Body = (bytes, none))
    (hdecode : decode bytes ⟨"", ""⟩ = (creds, some err))
    (hconnect : wpacfg.ConnectNetwork creds = (connection, some cerr)) :
    (connectHandler decode wpacfg r (start hdr log ch)).w.status = some 500 ∧
      (connectHandler decode wpacfg r (start hdr log ch)).w.written = [err ++ "\n"] := by
  simp [connectHandler, marshallPost, hbody, hdecode, hconnect, State.Info, State.Error,
    start, httpError, ResponseWriter.fresh, ResponseWriter.Write,
    ResponseWriter.WriteHeader, ResponseWriter.headerSet, StatusInternalServerError]

/-! ## Serialization failures -/

/-- C10, the behaviour of the code: when `Status()` succeeds with a result that
`json.Marshal` rejects, `apiPayloadReturn` drops the error and `statusHandler`
writes the nil bytes: status 200 with an empty body, and nothing is logged. -/
theorem statusHandler_marshal_error_empty_body (wpacfg : WpaCfg)
    (hdr : List (String × String)) (log : List LogEntry) (ch : Chan) (err : GoError)
    (hstatus : wpacfg.Status = (.unsupported err, none)) :
    (statusHandler wpacfg (start hdr log ch)).w.written = [""] ∧
      (statusHandler wpacfg (start hdr log ch)).w.body = "" ∧
      (statusHandler wpacfg (start hdr log ch)).w.status = some 200 ∧
      (statusHandler wpacfg (start hdr log ch)).blog = log := by
  have h : statusHandler wpacfg (start hdr log ch) =
      ⟨⟨jsonHeader hdr, some 200, jsonHeader hdr, [""]⟩, log, ch⟩ := by
    simp [statusHandler, hstatus, apiPayloadReturn, marshal_unsupported, start,
      fresh_set_write]
  rw [h]
  exact ⟨rfl, rfl, rfl, rfl⟩

/-- C10, witness: a collaborator whose status result does not encode. -/
theorem statusHandler_marshal_error_empty_body_witness :
    (statusHandler unsupportedWpaCfg initial).w.written = [""] ∧
      (statusHandler unsupportedWpaCfg initial).w.body = "" ∧
      (statusHandler unsupportedWpaCfg initial).w.status = some 200 ∧
      (statusHandler unsupportedWpaCfg initial).blog = [] :=
  statusHandler_marshal_error_empty_body unsupportedWpaCfg [] [] messages
    "json: unsupported value: NaN" rfl

/-- The sibling paths: when the result of `ScanNetworks()` or of
`ConnectNetwork` (after a body that decoded) is rejected by `json.Marshal`, the
handler writes the failure envelope with the encoder error as message. -/
theorem scan_connect_marshal_error_envelope (decode : Decoder) (wpacfg : WpaCfg)
    (r : Request) (hdr : List (String × String)) (log : List LogEntry) (ch : Chan)
    (err : GoError) :
    (wpacfg.ScanNetworks = (.unsupported err, none) →
        (scanHandler wpacfg (start hdr log ch)).w.written = [envelope "FAIL" err "null"]) ∧
      (∀ bytes creds, r.Body = (bytes, none) → decode bytes ⟨"", ""⟩ = (creds, none) →
        wpacfg.ConnectNetwork creds = (.unsupported err, none) →
        (connectHandler decode wpacfg r (start hdr log ch)).w.written =
          [envelope "FAIL" err "null"]) := by
  constructor
  · intro hscan
    simp [scanHandler, hscan, State.Info, marshal_unsupported, retError_eq, start,
      fresh_set_write]
  · intro bytes creds hbody hdecode hconnect
    simp [connectHandler, marshallPost, hbody, hdecode, hconnect, State.Info,
      marshal_unsupported, retError_eq, start, fresh_set_write]

end Txwifi
